import Mathlib

/-!
Shallow embedding of the election-research pipeline
(repository `AI-Research-Assistant`, directory `election-research-agent/src`).

Python dictionaries with possibly-missing keys are modelled as structures of
`Option` fields; `d.get(k)` is the field itself, `d.get(k, v)` is `Option.getD`,
and a bare `d[k]` on a missing key is the `KeyError` branch of the embedding.
Fallible external collaborators (the newspaper download/parse step, the
language-model invocation, the HTTP client, the Twitter client) are passed in
as environment records of `Except`-valued functions; a Python `raise` is the
`.error` constructor and a caught-and-absorbed exception is an `.ok` carrying
the fallback value the handler produces.
-/

/-! ### News analyzer (`src/analysis/news_analyzer.py`) -/

/-- A raw news article dict as handed to `NewsAnalyzer._analyze_single_article`:
the code reads `article['url']` (bare indexing) and `article.get('url', 'unknown')`. -/
structure RawArticle where
  url : Option String
  title : Option String
  text : Option String
deriving Repr, DecidableEq

/-- The result of `Article(url).download(); parse(); nlp()` from newspaper3k:
title, text, summary, keywords, publish_date of the fetched page. -/
structure ParsedArticle where
  title : String
  text : String
  summary : String
  keywords : List String
  publish_date : Option String
deriving Repr, DecidableEq

/-- External collaborators of `NewsAnalyzer`: the newspaper3k fetch/parse step
and the chat-model invocation `llm.invoke([SystemMessage, HumanMessage])`.
Both may fail; failure is the exception the Python code catches. -/
structure NewsEnv where
  parseArticle : String → Except String ParsedArticle
  llmInvoke : String → String → Except String String

/-- System message used by `_analyze_single_article`. -/
def newsItemSystem : String :=
  "You are an expert political analyst. Analyze this news article for election-related information."

/-- System message used by `_aggregate_analysis`. -/
def newsMetaSystem : String :=
  "You are an expert political analyst. Provide a meta-analysis of these news analyses."

/-- One per-item analysis record. `_analyze_single_article` returns either the
full success dict or the two-key error dict; absent keys are `none`. -/
structure ItemAnalysis where
  url : Option String
  title : Option String
  summary : Option String
  keywords : Option (List String)
  llm_analysis : Option String
  publication_date : Option (Option String)
  error : Option String
deriving Repr, DecidableEq

/-- `NewsAnalyzer._analyze_single_article`: reads `article['url']`, fetches and
parses the page, invokes the model on title and content, and on any exception
returns the error record with `url = article.get('url', 'unknown')`. -/
def analyzeSingleArticle (env : NewsEnv) (article : RawArticle) : ItemAnalysis :=
  match article.url with
  | none =>
      { url := some "unknown", title := none, summary := none, keywords := none,
        llm_analysis := none, publication_date := none, error := some "KeyError: url" }
  | some u =>
      match env.parseArticle u with
      | .error e =>
          { url := some u, title := none, summary := none, keywords := none,
            llm_analysis := none, publication_date := none, error := some e }
      | .ok parsed =>
          match env.llmInvoke newsItemSystem
              ("Title: " ++ parsed.title ++ "\n\nContent: " ++ parsed.text) with
          | .error e =>
              { url := some u, title := none, summary := none, keywords := none,
                llm_analysis := none, publication_date := none, error := some e }
          | .ok content =>
              { url := some u, title := some parsed.title, summary := some parsed.summary,
                keywords := some parsed.keywords, llm_analysis := some content,
                publication_date := some parsed.publish_date, error := none }

/-- The text `_aggregate_analysis` feeds to the meta-analysis model call:
`"\n\n".join([a['llm_analysis'] for a in analyzed_articles if 'llm_analysis' in a])`. -/
def combinedAnalysisText (analyzed : List ItemAnalysis) : String :=
  String.intercalate "\n\n" (analyzed.filterMap (fun a => a.llm_analysis))

/-- The aggregate dict returned by `_aggregate_analysis`. -/
structure AggregatedAnalysis where
  meta_analysis : String
  article_count : Nat
  individual_analyses : List ItemAnalysis
deriving Repr, DecidableEq

/-- `NewsAnalyzer._aggregate_analysis`: one meta model call over the combined
valid analyses; a failing model call is logged and re-raised. -/
def aggregateAnalysis (env : NewsEnv) (analyzed : List ItemAnalysis) :
    Except String AggregatedAnalysis :=
  match env.llmInvoke newsMetaSystem (combinedAnalysisText analyzed) with
  | .error e => .error e
  | .ok meta =>
      .ok { meta_analysis := meta, article_count := analyzed.length,
            individual_analyses := analyzed }

/-- `NewsAnalyzer.analyze`: analyze every article in order, then aggregate. -/
def NewsAnalyzer.analyze (env : NewsEnv) (news_data : List RawArticle) :
    Except String AggregatedAnalysis :=
  aggregateAnalysis env (news_data.map (analyzeSingleArticle env))

/-! ### Social media analyzer (`src/analysis/social_media_analyzer.py`) -/

/-- One tweet dict as produced by the collector's Twitter loop. Timestamps
(`created_at`) are modelled as naturals ordered like the datetimes. -/
structure Tweet where
  id : Nat
  text : String
  created_at : Nat
  user : String
  retweet_count : Nat
  favorite_count : Nat
deriving Repr, DecidableEq

/-- External collaborator of `SocialMediaAnalyzer`: the chat-model invocation. -/
structure SocialEnv where
  llmInvoke : String → String → Except String String

/-- System message used by `_analyze_twitter`. -/
def socialSystem : String :=
  "You are an expert in social media analysis and political sentiment. Analyze these tweets for election-related patterns and sentiment."

/-- The dict returned by `_analyze_twitter` on success. -/
structure TwitterAnalysis where
  sentiment_analysis : String
  tweet_count : Nat
  time_period_start : Nat
  time_period_end : Nat
deriving Repr, DecidableEq

/-- `SocialMediaAnalyzer._analyze_twitter`: joins the tweet texts, invokes the
model, then builds the result dict whose `time_period` takes
`min`/`max` over `tweet['created_at']` — on an empty tweet list that
reduction is Python's `ValueError: min() arg is an empty sequence`, which the
handler logs and re-raises. -/
def analyzeTwitter (env : SocialEnv) (tweets : List Tweet) :
    Except String TwitterAnalysis :=
  let tweet_texts := String.intercalate "\n\n" (tweets.map (fun t => t.text))
  match env.llmInvoke socialSystem ("Tweets:\n" ++ tweet_texts) with
  | .error e => .error e
  | .ok content =>
      match tweets with
      | [] => .error "ValueError: min() arg is an empty sequence"
      | t :: ts =>
          .ok { sentiment_analysis := content,
                tweet_count := (t :: ts).length,
                time_period_start := ts.foldl (fun acc x => Nat.min acc x.created_at) t.created_at,
                time_period_end := ts.foldl (fun acc x => Nat.max acc x.created_at) t.created_at }

/-- `SocialMediaAnalyzer._calculate_overall_sentiment`: the placeholder always
returns the neutral sentiment `0.0`. -/
def calculateOverallSentiment (_ : TwitterAnalysis) : ℚ := 0

/-- The dict returned by `SocialMediaAnalyzer.analyze`. -/
structure SocialAnalysisResult where
  timestamp : String
  twitter_analysis : TwitterAnalysis
  overall_sentiment : ℚ
deriving Repr, DecidableEq

/-- The `social_data` dict argument of `SocialMediaAnalyzer.analyze`; the code
reads `social_data.get('twitter', [])`. -/
structure SocialData where
  twitter : Option (List Tweet)
deriving Repr, DecidableEq

/-- `SocialMediaAnalyzer.analyze`: analyze the tweets, attach the timestamp and
the overall sentiment; any exception is logged and re-raised. -/
def SocialMediaAnalyzer.analyze (env : SocialEnv) (now : String)
    (social_data : SocialData) : Except String SocialAnalysisResult :=
  match analyzeTwitter env (social_data.twitter.getD []) with
  | .error e => .error e
  | .ok ta =>
      .ok { timestamp := now, twitter_analysis := ta,
            overall_sentiment := calculateOverallSentiment ta }

/-! ### Data collector (`src/data/data_collector.py`) -/

/-- Query parameters extracted from the natural-language query; every field is
read with `params.get(...)`, so every field may be absent. -/
structure ElectionParams where
  election_type : Option String
  country : Option String
  region : Option String
  date : Option String
  candidates : Option (List String)
  keywords : Option (List String)
  hashtags : Option (List String)
deriving Repr, DecidableEq

/-- Python truthiness of `params.get(key)` for a string field: contributes the
string when present and non-empty (`if params.get(key):`). -/
def truthyString (o : Option String) : List String :=
  match o with
  | some s => if s = "" then [] else [s]
  | none => []

/-- The `search_terms` list built by `_collect_news`: election type, country,
region, quoted candidate names, then keywords. -/
def newsSearchTerms (params : ElectionParams) : List String :=
  truthyString params.election_type ++ truthyString params.country ++
    truthyString params.region ++
    (params.candidates.getD []).map (fun c => "\"" ++ c ++ "\"") ++
    params.keywords.getD []

/-- The news search expression: `' AND '.join(search_terms)`. -/
def newsQuery (params : ElectionParams) : String :=
  String.intercalate " AND " (newsSearchTerms params)

/-- The `api_params` dict `_collect_news` builds for the News API: the
constructed query, a from-date of seven days before now (modelled in days),
relevancy sort, English, and the API key. -/
structure NewsApiParams where
  q : String
  fromDay : Nat
  sortBy : String
  language : String
  apiKey : String
deriving Repr, DecidableEq

/-- `api_params` as built at `data_collector.py` lines 107–113. -/
def newsApiParamsBuilt (params : ElectionParams) (nowDay : Nat) (apiKey : String) :
    NewsApiParams :=
  { q := newsQuery params, fromDay := nowDay - 7, sortBy := "relevancy",
    language := "en", apiKey := apiKey }

/-- What a GET to the News API can carry as its query-string dict: either the
raw election-parameters dict or the constructed `api_params` dict. -/
inductive SentRequestParams where
  | rawElection (p : ElectionParams)
  | api (a : NewsApiParams)
deriving Repr, DecidableEq

/-- The News API endpoint used by `_collect_news`. -/
def newsBaseUrl : String := "https://newsapi.org/v2/everything"

/-- An issued HTTP GET: url plus the params dict actually passed to
`requests.get`. -/
structure NewsHttpRequest where
  url : String
  sent : SentRequestParams
deriving Repr, DecidableEq

/-- The request `_collect_news` actually issues:
`requests.get(base_url, params=params)` — the raw election parameters, not the
`api_params` it just built. -/
def newsRequestIssued (params : ElectionParams) : NewsHttpRequest :=
  { url := newsBaseUrl, sent := .rawElection params }

/-- One article dict from the News API response; keys may be absent. The
nested `article['source']['name']` is flattened to `sourceName`. -/
structure ApiArticle where
  url : Option String
  title : Option String
  publishedAt : Option String
  sourceName : Option String
deriving Repr, DecidableEq

/-- External collaborators of `_collect_news`: the HTTP client (returning the
response's `articles` list) and newspaper3k's download-and-parse (returning
the clean text; its failure is the `ArticleException` the loop catches). -/
structure CollectEnv where
  httpGet : NewsHttpRequest → Except String (List ApiArticle)
  downloadParse : String → Except String String

/-- One processed article as appended by the `_collect_news` loop. -/
structure ProcessedArticle where
  url : String
  title : String
  text : String
  published_at : String
  source : String
deriving Repr, DecidableEq

/-- The body of the per-article loop: read `article['url']`, download and
parse (an `ArticleException` is logged and the item skipped: `.ok none`), then
build the processed dict from the remaining keys — a missing key there is a
`KeyError`, which the loop does not catch. -/
def processArticle (env : CollectEnv) (a : ApiArticle) :
    Except String (Option ProcessedArticle) :=
  match a.url with
  | none => .error "KeyError: url"
  | some u =>
      match env.downloadParse u with
      | .error _ => .ok none
      | .ok text =>
          match a.title, a.publishedAt, a.sourceName with
          | some t, some pa, some sn =>
              .ok (some { url := u, title := t, text := text,
                          published_at := pa, source := sn })
          | _, _, _ => .error "KeyError"

/-- The `_collect_news` loop over the response's articles. -/
def processArticles (env : CollectEnv) : List ApiArticle → Except String (List ProcessedArticle)
  | [] => .ok []
  | a :: rest =>
      match processArticle env a with
      | .error e => .error e
      | .ok none => processArticles env rest
      | .ok (some p) =>
          match processArticles env rest with
          | .error e => .error e
          | .ok ps => .ok (p :: ps)

/-- `DataCollector._collect_news`: issue the GET (with the raw parameters as
the query string), then process each returned article. -/
def collectNews (env : CollectEnv) (params : ElectionParams) :
    Except String (List ProcessedArticle) :=
  match env.httpGet (newsRequestIssued params) with
  | .error e => .error e
  | .ok articles => processArticles env articles

/-- A response article with every key present (the News API schema). -/
def wellFormedArticle (a : ApiArticle) : Prop :=
  a.url.isSome ∧ a.title.isSome ∧ a.publishedAt.isSome ∧ a.sourceName.isSome

instance (a : ApiArticle) : Decidable (wellFormedArticle a) := by
  unfold wellFormedArticle; infer_instance

/-! ### Orchestrator (`src/main.py`) -/

/-- The dict returned by the prediction step: a confidence and a mapping from
candidate name to probability (probabilities modelled as rationals). -/
structure PredictionResult where
  confidence : ℚ
  predictions : List (String × ℚ)
deriving Repr, DecidableEq

/-- The part of `DataCollector.collect`'s output that `run_analysis` reads:
`raw_data['news']` and `raw_data['social']['twitter']`. -/
structure RawCollectedData where
  news : List ProcessedArticle
  socialTwitter : List Tweet
deriving Repr, DecidableEq

/-- External collaborators of `ElectionResearchSystem.run_analysis`: the query
parser and content analyzer of `LocalLLMHandler`, the data collector's
sources, and the prediction generator. Each may fail with an exception. -/
structure RunEnv where
  parseQuery : String → Except String ElectionParams
  collect : ElectionParams → Except String RawCollectedData
  analyzeContent : String → String → Except String String
  generatePrediction : List String → Except String PredictionResult

/-- The dict returned by `run_analysis`; the nested `news_analysis` and
`social_analysis` dicts are flattened into their two keys each. -/
structure RunResult where
  timestamp : String
  query_parameters : ElectionParams
  news_articles : List ProcessedArticle
  news_analysis : String
  social_tweets : List Tweet
  social_analysis : String
  predictions : PredictionResult
deriving Repr, DecidableEq

/-- `ElectionResearchSystem.run_analysis`: parse the query, collect, analyze
the joined news texts and the joined tweet texts, generate predictions, and
assemble the result with the current timestamp. Every stage failure is logged
and re-raised (both by `parse_election_query` and by the pipeline's own
handler), so each propagates unchanged. -/
def runAnalysis (env : RunEnv) (now : String) (query : String) :
    Except String RunResult :=
  match env.parseQuery query with
  | .error e => .error e
  | .ok params =>
      match env.collect params with
      | .error e => .error e
      | .ok raw =>
          match env.analyzeContent
              (String.intercalate "\n" (raw.news.map (fun a => a.text)))
              "news article" with
          | .error e => .error e
          | .ok newsAnalysis =>
              match env.analyzeContent
                  (String.intercalate "\n" (raw.socialTwitter.map (fun t => t.text)))
                  "social media" with
              | .error e => .error e
              | .ok socialAnalysis =>
                  match env.generatePrediction [newsAnalysis, socialAnalysis] with
                  | .error e => .error e
                  | .ok preds =>
                      .ok { timestamp := now, query_parameters := params,
                            news_articles := raw.news, news_analysis := newsAnalysis,
                            social_tweets := raw.socialTwitter,
                            social_analysis := socialAnalysis, predictions := preds }

/-- `RunResult` with its timestamp field overwritten, to compare runs up to
the timestamp. -/
def withTimestamp (r : RunResult) (t : String) : RunResult :=
  { r with timestamp := t }

/-! ### Predictor (`src/models/prediction_model.py`, absent from `src/`) -/

/-- Modelled from the spec: the Predictor (`src/models/prediction_model.py` and
`LocalLLMHandler.generate_prediction` in `src/models/local_llm.py`) is not
present under `src/`; only its caller `main.py` is. Per the spec the source
stubs prediction with placeholder neutral values subject to the contract:
one entry per distinct supplied candidate name with a probability in [0,1],
an overall confidence in [0,1], and for zero candidates an empty predictions
mapping with confidence 0. The neutral placeholder assigns each distinct
candidate the uniform probability. -/
def predict (candidates : List String) : PredictionResult :=
  { confidence := if candidates.dedup.isEmpty then 0 else 1/2,
    predictions := candidates.dedup.map
      (fun c => (c, 1 / (candidates.dedup.length : ℚ))) }

/-! ### Concrete collaborator stubs used by the theorems below -/

/-- A model stub that echoes its content argument. -/
def echoSocialEnv : SocialEnv := { llmInvoke := fun _ c => .ok c }

/-- A sample tweet. -/
def sampleTweet : Tweet :=
  { id := 1, text := "hello", created_at := 100, user := "u",
    retweet_count := 2, favorite_count := 3 }

/-- A news environment whose fetch/parse step always fails. -/
def failNewsEnv : NewsEnv :=
  { parseArticle := fun _ => .error "ServiceError: boom",
    llmInvoke := fun _ c => .ok c }

/-- A sample raw article with a url. -/
def sampleRawArticle : RawArticle :=
  { url := some "https://e.com/a", title := none, text := none }

/-! ### Theorems -/

/-- C1: the claim says aggregating zero item analyses must not raise and must
return an aggregate with item_count 0, in particular on the social-media path
with zero tweets. The code violates this: `_analyze_twitter` takes
`min`/`max` of `created_at` over an empty tweet sequence, which raises
`ValueError` and is re-raised by `SocialMediaAnalyzer.analyze`; evaluating the
embedding on zero tweets (with a model stub that succeeds) yields exactly that
error instead of an item_count-0 aggregate. -/
theorem C1_zero_tweets_social_analysis_raises :
    SocialMediaAnalyzer.analyze echoSocialEnv "2024-01-01T00:00:00"
      { twitter := some [] } =
      .error "ValueError: min() arg is an empty sequence" := rfl

/-- C10: whenever `SocialMediaAnalyzer.analyze` returns a result, its
`overall_sentiment` field is the constant placeholder 0, independent of the
tweets and of the per-tweet analysis. -/
theorem C10_overall_sentiment_always_zero (env : SocialEnv) (now : String)
    (social_data : SocialData) (r : SocialAnalysisResult)
    (h : SocialMediaAnalyzer.analyze env now social_data = .ok r) :
    r.overall_sentiment = 0 := by
  unfold SocialMediaAnalyzer.analyze at h
  rcases hta : analyzeTwitter env (social_data.twitter.getD []) with e | ta
  · rw [hta] at h; cases h
  · rw [hta] at h
    injection h with h2
    subst h2
    rfl

/-- Witness for C10 at a concrete environment and a one-tweet input. -/
theorem C10_overall_sentiment_always_zero_witness :
    SocialAnalysisResult.overall_sentiment
      { timestamp := "T",
        twitter_analysis :=
          { sentiment_analysis := "Tweets:\nhello", tweet_count := 1,
            time_period_start := 100, time_period_end := 100 },
        overall_sentiment := 0 } = 0 :=
  C10_overall_sentiment_always_zero echoSocialEnv "T" { twitter := some [sampleTweet] }
    _ (by rfl)

/-- C2: `_analyze_single_article` never raises: it always returns a record, the
identifier is always present and equals `article.get('url', 'unknown')`, and
whenever the error field is set, every analysis field is absent (only the
error and the identifier are populated). -/
theorem C2_single_item_error_contract (env : NewsEnv) (a : RawArticle) :
    (analyzeSingleArticle env a).url = some (a.url.getD "unknown") ∧
    ((analyzeSingleArticle env a).error.isSome = true →
      (analyzeSingleArticle env a).title = none ∧
      (analyzeSingleArticle env a).summary = none ∧
      (analyzeSingleArticle env a).keywords = none ∧
      (analyzeSingleArticle env a).llm_analysis = none ∧
      (analyzeSingleArticle env a).publication_date = none) := by
  rcases h1 : a.url with _ | u
  · simp [analyzeSingleArticle, h1]
  · rcases h2 : env.parseArticle u with e | parsed
    · simp [analyzeSingleArticle, h1, h2]
    · rcases h3 : env.llmInvoke newsItemSystem
          ("Title: " ++ parsed.title ++ "\n\nContent: " ++ parsed.text) with e | content
      · simp [analyzeSingleArticle, h1, h2, h3]
      · simp [analyzeSingleArticle, h1, h2, h3]

/-- Witness for C2 at a concrete failing environment. -/
theorem C2_single_item_error_contract_witness :
    (analyzeSingleArticle failNewsEnv sampleRawArticle).title = none ∧
    (analyzeSingleArticle failNewsEnv sampleRawArticle).summary = none ∧
    (analyzeSingleArticle failNewsEnv sampleRawArticle).keywords = none ∧
    (analyzeSingleArticle failNewsEnv sampleRawArticle).llm_analysis = none ∧
    (analyzeSingleArticle failNewsEnv sampleRawArticle).publication_date = none :=
  (C2_single_item_error_contract failNewsEnv sampleRawArticle).2 (by rfl)

/-- Helper: whenever `_aggregate_analysis` succeeds, the aggregate counts the
whole input list and retains it verbatim. -/
theorem aggregateAnalysis_ok (env : NewsEnv) (rs : List ItemAnalysis)
    (agg : AggregatedAnalysis) (h : aggregateAnalysis env rs = .ok agg) :
    agg.article_count = rs.length ∧ agg.individual_analyses = rs := by
  unfold aggregateAnalysis at h
  rcases h2 : env.llmInvoke newsMetaSystem (combinedAnalysisText rs) with e | meta
  · rw [h2] at h; cases h
  · rw [h2] at h
    injection h with h3
    subst h3
    exact ⟨rfl, rfl⟩

/-- A news environment that echoes model content and whose fetch/parse step
fails exactly on the third of five sample urls. -/
def env5 : NewsEnv :=
  { parseArticle := fun u =>
      if u = "u3" then .error "ServiceError: simulated failure"
      else .ok { title := "T", text := "X", summary := "S", keywords := [],
                 publish_date := none },
    llmInvoke := fun _ c => .ok c }

/-- A raw article carrying only a url. -/
def mkRaw (u : String) : RawArticle := { url := some u, title := none, text := none }

/-- Five sample raw articles; the third triggers the simulated failure. -/
def items5 : List RawArticle :=
  [mkRaw "u1", mkRaw "u2", mkRaw "u3", mkRaw "u4", mkRaw "u5"]

/-- The aggregate the five-item sample run produces. -/
def agg5 : AggregatedAnalysis :=
  { meta_analysis := combinedAnalysisText (items5.map (analyzeSingleArticle env5)),
    article_count := 5,
    individual_analyses := items5.map (analyzeSingleArticle env5) }

/-- C3: whenever analyzing then aggregating completes, the aggregate holds
exactly one Item Analysis per input item (the list of individual analyses is
the pointwise image of the input), its item_count equals the input length
counting error-only records, and the number of error-carrying records equals
the number of failing items — so one failure among N leaves N−1 intact and
exactly one error record. -/
theorem C3_one_analysis_per_item (env : NewsEnv) (items : List RawArticle)
    (agg : AggregatedAnalysis)
    (h : NewsAnalyzer.analyze env items = .ok agg) :
    agg.article_count = items.length ∧
    agg.individual_analyses = items.map (analyzeSingleArticle env) ∧
    agg.individual_analyses.countP (fun r => r.error.isSome) =
      items.countP (fun i => ((analyzeSingleArticle env i).error).isSome) := by
  unfold NewsAnalyzer.analyze at h
  obtain ⟨hcount, hind⟩ := aggregateAnalysis_ok env _ agg h
  refine ⟨by simpa using hcount, hind, ?_⟩
  rw [hind, List.countP_map]
  rfl

/-- Witness for C3: the spec's five-item scenario, where item 3 triggers a
simulated service failure; the aggregate counts 5 and exactly one record
carries an error. -/
theorem C3_one_analysis_per_item_witness :
    (agg5.article_count = items5.length ∧
     agg5.individual_analyses = items5.map (analyzeSingleArticle env5) ∧
     agg5.individual_analyses.countP (fun r => r.error.isSome) =
       items5.countP (fun i => ((analyzeSingleArticle env5 i).error).isSome)) ∧
    items5.countP (fun i => ((analyzeSingleArticle env5 i).error).isSome) = 1 :=
  ⟨C3_one_analysis_per_item env5 items5 agg5 (by rfl), by decide⟩

/-- Helper: for analyzer-produced records the analysis text is present exactly
when the error field is absent. -/
theorem analyzeSingle_llm_error (env : NewsEnv) (a : RawArticle) :
    (analyzeSingleArticle env a).llm_analysis.isNone =
      (analyzeSingleArticle env a).error.isSome := by
  rcases h1 : a.url with _ | u
  · simp [analyzeSingleArticle, h1]
  · rcases h2 : env.parseArticle u with e | parsed
    · simp [analyzeSingleArticle, h1, h2]
    · rcases h3 : env.llmInvoke newsItemSystem
          ("Title: " ++ parsed.title ++ "\n\nContent: " ++ parsed.text) with e | content
      · simp [analyzeSingleArticle, h1, h2, h3]
      · simp [analyzeSingleArticle, h1, h2, h3]

/-- Helper: dropping the error-carrying records does not change the extracted
analysis texts, for any record list where the text is present exactly when the
error is absent. -/
theorem llm_filterMap_filter (rs : List ItemAnalysis)
    (h : ∀ r ∈ rs, r.llm_analysis.isNone = r.error.isSome) :
    rs.filterMap (fun a => a.llm_analysis) =
      (rs.filter (fun r => r.error.isNone)).filterMap (fun a => a.llm_analysis) := by
  induction rs with
  | nil => rfl
  | cons r rest ih =>
    have hr := h r (List.mem_cons_self r rest)
    have hrest := fun x hx => h x (List.mem_cons_of_mem r hx)
    rcases hl : r.llm_analysis with _ | v
    · have herr : r.error.isSome = true := by rw [← hr, hl]; rfl
      have herrN : r.error.isNone = false := by
        cases he : r.error
        · rw [he] at herr; cases herr
        · rfl
      simp [List.filterMap_cons, List.filter_cons, hl, herrN, ih hrest]
    · have herr : r.error.isSome = false := by rw [← hr, hl]; rfl
      have herrN : r.error.isNone = true := by
        cases he : r.error
        · rfl
        · rw [he] at herr; cases herr
      simp [List.filterMap_cons, List.filter_cons, hl, herrN, ih hrest]

/-- C8: for analyzer-produced records, the text handed to the meta-analysis
model call is unchanged when the error-carrying records are dropped (they
contribute nothing to the meta-analysis input), while the aggregate still
retains every record in its raw list of individual analyses. -/
theorem C8_meta_text_excludes_error_records (env : NewsEnv)
    (items : List RawArticle) :
    combinedAnalysisText (items.map (analyzeSingleArticle env)) =
      combinedAnalysisText
        ((items.map (analyzeSingleArticle env)).filter (fun r => r.error.isNone)) ∧
    (∀ agg, aggregateAnalysis env (items.map (analyzeSingleArticle env)) = .ok agg →
      agg.individual_analyses = items.map (analyzeSingleArticle env)) := by
  constructor
  · unfold combinedAnalysisText
    congr 1
    apply llm_filterMap_filter
    intro r hr
    rcases List.mem_map.mp hr with ⟨a, _, rfl⟩
    exact analyzeSingle_llm_error env a
  · intro agg h
    exact (aggregateAnalysis_ok env _ agg h).2

/-- Witness for C8 at the five-item scenario. -/
theorem C8_meta_text_excludes_error_records_witness :
    combinedAnalysisText (items5.map (analyzeSingleArticle env5)) =
      combinedAnalysisText
        ((items5.map (analyzeSingleArticle env5)).filter (fun r => r.error.isNone)) ∧
    agg5.individual_analyses = items5.map (analyzeSingleArticle env5) :=
  ⟨(C8_meta_text_excludes_error_records env5 items5).1,
   (C8_meta_text_excludes_error_records env5 items5).2 agg5 (by rfl)⟩

/-- Helper: an item whose download-and-parse step fails is skipped by the
collection loop, leaving the rest of the batch unchanged. -/
theorem processArticles_skip (env : CollectEnv) (a : ApiArticle)
    (hskip : processArticle env a = .ok none) :
    ∀ xs ys, processArticles env (xs ++ a :: ys) = processArticles env (xs ++ ys) := by
  intro xs ys
  induction xs with
  | nil => simp [processArticles, hskip]
  | cons x xs ih => simp [processArticles, ih]

/-- Helper: a batch of response articles with every key present is processed
without an uncaught exception. -/
theorem processArticles_wf (env : CollectEnv) :
    ∀ articles, (∀ a ∈ articles, wellFormedArticle a) →
      ∃ ps, processArticles env articles = .ok ps := by
  intro articles
  induction articles with
  | nil => exact fun _ => ⟨[], rfl⟩
  | cons a rest ih =>
    intro h
    obtain ⟨hu, ht, hp, hs⟩ := h a (List.mem_cons_self a rest)
    obtain ⟨ps, hps⟩ := ih (fun x hx => h x (List.mem_cons_of_mem a hx))
    rcases hu' : a.url with _ | u
    · rw [hu'] at hu; cases hu
    · rcases hd : env.downloadParse u with e | text
      · refine ⟨ps, ?_⟩
        simp [processArticles, processArticle, hu', hd, hps]
      · rcases ht' : a.title with _ | t
        · rw [ht'] at ht; cases ht
        · rcases hp' : a.publishedAt with _ | pa
          · rw [hp'] at hp; cases hp
          · rcases hs' : a.sourceName with _ | sn
            · rw [hs'] at hs; cases hs
            · refine ⟨{ url := u, title := t, text := text,
                        published_at := pa, source := sn } :: ps, ?_⟩
              simp [processArticles, processArticle, hu', hd, ht', hp', hs', hps]

/-- C4: in the news-collection loop, a per-item fetch/parse failure (the
`ArticleException` newspaper3k raises while downloading or parsing one
article) is caught and the item skipped, the remaining items are still
returned, and — for a batch of well-formed response articles — no single such
failure makes the whole batch fail. -/
theorem C4_per_item_failure_skipped (env : CollectEnv) (xs ys : List ApiArticle)
    (a : ApiArticle) (u e : String)
    (hu : a.url = some u) (hf : env.downloadParse u = .error e)
    (hwf : ∀ b ∈ xs ++ ys, wellFormedArticle b) :
    processArticles env (xs ++ a :: ys) = processArticles env (xs ++ ys) ∧
    ∃ ps, processArticles env (xs ++ ys) = .ok ps := by
  have hskip : processArticle env a = .ok none := by
    simp [processArticle, hu, hf]
  exact ⟨processArticles_skip env a hskip xs ys, processArticles_wf env (xs ++ ys) hwf⟩

/-- A collection environment where downloading the url "bad" raises
`ArticleException` and every other download succeeds. -/
def collectEnvW : CollectEnv :=
  { httpGet := fun _ => .ok [],
    downloadParse := fun u =>
      if u = "bad" then .error "ArticleException" else .ok ("body of " ++ u) }

/-- A well-formed response article for the given url. -/
def apiA (u : String) : ApiArticle :=
  { url := some u, title := some ("t " ++ u), publishedAt := some "2024-01-01",
    sourceName := some "S" }

/-- The response article whose download fails in the witness scenario. -/
def badArticle : ApiArticle :=
  { url := some "bad", title := none, publishedAt := none, sourceName := none }

/-- Witness for C4: one unreachable article between two good ones is skipped
and the two good ones are still returned. -/
theorem C4_per_item_failure_skipped_witness :
    processArticles collectEnvW ([apiA "g1"] ++ badArticle :: [apiA "g2"]) =
      processArticles collectEnvW ([apiA "g1"] ++ [apiA "g2"]) ∧
    ∃ ps, processArticles collectEnvW ([apiA "g1"] ++ [apiA "g2"]) = .ok ps :=
  C4_per_item_failure_skipped collectEnvW [apiA "g1"] [apiA "g2"] badArticle
    "bad" "ArticleException" (by rfl) (by rfl) (by decide)

/-- The spec's example query parameters. -/
def sampleParams : ElectionParams :=
  { election_type := some "presidential", country := some "USA", region := none,
    date := none, candidates := some ["A", "B"], keywords := none, hashtags := none }

/-- C5: the claim says the news fetch actually sends the constructed
conjunction query and the seven-day date window to the news API. The code
violates this: `_collect_news` builds `api_params` (query, from-date, sort,
language, api key) but then calls `requests.get(base_url, params=params)`
with the raw election-parameters dict, so the query string it sends is never
the constructed one — the embedding shows the issued request carries the raw
parameters and differs from the built `api_params` for every now-day and
api key, even though the conjunction query itself is built correctly. -/
theorem C5_news_request_sends_raw_params :
    newsQuery sampleParams = "presidential AND USA AND \"A\" AND \"B\"" ∧
    (newsRequestIssued sampleParams).sent = SentRequestParams.rawElection sampleParams ∧
    ∀ (nowDay : Nat) (apiKey : String),
      (newsRequestIssued sampleParams).sent ≠
        SentRequestParams.api (newsApiParamsBuilt sampleParams nowDay apiKey) := by
  refine ⟨by decide, rfl, ?_⟩
  intro nowDay apiKey h
  cases h

/-- An orchestration environment whose collaborators all succeed but whose
sources return zero items. -/
def zeroItemsEnv : RunEnv :=
  { parseQuery := fun _ => .ok sampleParams,
    collect := fun _ => .ok { news := [], socialTwitter := [] },
    analyzeContent := fun _ kind => .ok ("analysis of " ++ kind),
    generatePrediction := fun _ =>
      .ok { confidence := 1/2, predictions := [("A", 1/2), ("B", 1/2)] } }

/-- C7 counterexample: with every collaborator succeeding and all sources
returning zero items (total fetch failure), `run_analysis` does not terminate
with a run-level error — it returns a normal result built from empty data. -/
theorem C7_zero_items_run_succeeds :
    runAnalysis zeroItemsEnv "2024-01-01T00:00:00" "query" =
      .ok { timestamp := "2024-01-01T00:00:00", query_parameters := sampleParams,
            news_articles := [], news_analysis := "analysis of news article",
            social_tweets := [], social_analysis := "analysis of social media",
            predictions := { confidence := 1/2,
                             predictions := [("A", 1/2), ("B", 1/2)] } } := rfl

/-- C7 amended: a failure to parse the query into structured parameters is
run-fatal — the parse error propagates unchanged out of `run_analysis`. (Zero
collected items, by contrast, is not detected; see the counterexample.) -/
theorem C7_parse_failure_run_fatal (env : RunEnv) (now query e : String)
    (h : env.parseQuery query = .error e) :
    runAnalysis env now query = .error e := by
  unfold runAnalysis
  rw [h]

/-- An orchestration environment whose query parser always fails. -/
def parseFailEnv : RunEnv :=
  { parseQuery := fun _ => .error "ParseError: missing candidates",
    collect := fun _ => .ok { news := [], socialTwitter := [] },
    analyzeContent := fun _ _ => .ok "a",
    generatePrediction := fun _ => .ok { confidence := 0, predictions := [] } }

/-- Witness for the amended C7 at a concrete failing parser. -/
theorem C7_parse_failure_run_fatal_witness :
    runAnalysis parseFailEnv "T" "q" = .error "ParseError: missing candidates" :=
  C7_parse_failure_run_fatal parseFailEnv "T" "q" _ rfl

/-- C9: with the collaborators fixed (same environment, same query), two runs
at different clock readings produce results identical in every field except
the timestamp: overwriting the timestamps makes the two outcomes equal. -/
theorem C9_rerun_identical_except_timestamp (env : RunEnv) (query t1 t2 : String) :
    Except.map (fun r => withTimestamp r "") (runAnalysis env t1 query) =
      Except.map (fun r => withTimestamp r "") (runAnalysis env t2 query) := by
  unfold runAnalysis
  split
  · rfl
  · split
    · rfl
    · split
      · rfl
      · split
        · rfl
        · split
          · rfl
          · rfl

/-- C6: the Predictor returns exactly one entry per distinct supplied
candidate name (the prediction keys are the deduplicated candidate list, with
no duplicates), every probability lies in [0,1], the confidence lies in
[0,1], and zero candidates yield the empty predictions mapping with
confidence 0, without raising. -/
theorem C6_predictor_contract (candidates : List String) :
    (predict candidates).predictions.map Prod.fst = candidates.dedup ∧
    ((predict candidates).predictions.map Prod.fst).Nodup ∧
    (∀ pr ∈ (predict candidates).predictions, 0 ≤ pr.2 ∧ pr.2 ≤ 1) ∧
    (0 ≤ (predict candidates).confidence ∧ (predict candidates).confidence ≤ 1) ∧
    predict [] = { confidence := 0, predictions := [] } := by
  have hkeys : (predict candidates).predictions.map Prod.fst = candidates.dedup := by
    simp only [predict]
    rw [List.map_map]
    exact List.map_id _
  refine ⟨hkeys, ?_, ?_, ?_, rfl⟩
  · rw [hkeys]; exact candidates.nodup_dedup
  · intro pr hpr
    simp only [predict, List.mem_map] at hpr
    obtain ⟨c, hc, rfl⟩ := hpr
    have hlen : 0 < candidates.dedup.length :=
      List.length_pos.mpr (List.ne_nil_of_mem hc)
    have hlenQ : (0 : ℚ) < (candidates.dedup.length : ℚ) := by exact_mod_cast hlen
    constructor
    · positivity
    · rw [div_le_one hlenQ]
      exact_mod_cast hlen
  · constructor
    · simp only [predict]
      split <;> norm_num
    · simp only [predict]
      split <;> norm_num

/-- Witness for C6: the probability assigned to candidate "A" among two
distinct candidates is in [0,1]. -/
theorem C6_predictor_contract_witness :
    0 ≤ (("A", 1 / ((["A", "B"].dedup.length : ℚ))) : String × ℚ).2 ∧
      (("A", 1 / ((["A", "B"].dedup.length : ℚ))) : String × ℚ).2 ≤ 1 :=
  ((C6_predictor_contract ["A", "B"]).2.2.1)
    ("A", 1 / ((["A", "B"].dedup.length : ℚ)))
    (List.mem_map_of_mem _ (by simp))
